import Mathlib

/-!
# Piano-glove MIDI controller: a shallow embedding

This file embeds the performance logic of `MIDI_sam5004b.ino` (the ESP32
piano-glove BLE client) in Lean 4 and proves properties of it.

Modelling conventions:
* MIDI emissions (`MIDI.sendNoteOn/sendNoteOff/sendControlChange`) become
  values of the inductive `Ev`, collected in emission order in a `List Ev`.
  Every emission in the sketch uses channel 1; note-offs always carry
  velocity 0 and control changes always target controller 64 (sustain), so
  those constant arguments are not repeated in the constructors.
* Every C++ member function that mutates the controller state becomes a
  function `MidiState → MidiState × List Ev` (with an extra `now : Nat`
  argument where the function reads `millis()`; all `millis()` reads inside
  one invocation are modelled as the same instant).
* `millis()` returns `unsigned long` (32 bits on the ESP32); the elapsed-time
  subtractions in the sketch are 32-bit wraparound subtractions, modelled by
  `sub32`.
* The roll angle is a `float` in the sketch but is only ever compared against
  the integer threshold 50 through `abs`; it is modelled as an `Int`.
* Arrays indexed 0..24 (pressures) and 0..6 (note slots) are modelled as
  total functions out of `Nat`; only the in-range indices are ever used.
-/

/-- One MIDI emission of the sketch (always on channel 1). -/
inductive Ev where
  /-- Emission `MIDI.sendNoteOn(pitch, vel, 1)`. -/
  | on (pitch vel : Nat)
  /-- Emission `MIDI.sendNoteOff(pitch, 0, 1)`. -/
  | off (pitch : Nat)
  /-- Emission `MIDI.sendControlChange(64, val, 1)`. -/
  | cc (val : Nat)
deriving DecidableEq, Repr

/-- Sketch `enum ChordType`. -/
inductive ChordType where
  | MAJOR | MINOR | AUGMENTED | DIMINISHED | SUS4 | SEVENTH
deriving DecidableEq, Repr

/-- One decoded sensor notification: 25 pressure magnitudes and a roll angle. -/
structure Snapshot where
  roll : Int
  pressures : Nat → Nat

/-- The mutable state of the sketch: the fields of `MidiController` plus the
file-scope globals (`comboKeyActive`, `currentChord`, `currentArpeggioStep`,
`lastArpeggioTime`, `ARPEGGIO_DELAY`) that the controller logic reads and
writes. -/
structure MidiState where
  /-- Field `uint16_t pressureData[25]`. -/
  pressureData : Nat → Nat
  /-- Field `bool notesActive[7]`. -/
  notesActive : Nat → Bool
  /-- Field `float currentRoll`. -/
  currentRoll : Int
  /-- Field `bool sustainActive`. -/
  sustainActive : Bool
  /-- Global `bool comboKeyActive`. -/
  comboKeyActive : Bool
  /-- Global `unsigned long ARPEGGIO_DELAY` (runtime adjustable). -/
  arpeggioDelay : Nat
  /-- Global `unsigned long lastArpeggioTime`. -/
  lastArpeggioTime : Nat
  /-- Global `int currentArpeggioStep`. -/
  currentArpeggioStep : Nat
  /-- Field `currentChord.rootNote`. -/
  chordRoot : Nat
  /-- Field `currentChord.thirdNote`. -/
  chordThird : Nat
  /-- Field `currentChord.fifthNote`. -/
  chordFifth : Nat
  /-- Field `currentChord.seventhNote`. -/
  chordSeventh : Nat
  /-- Field `currentChord.type`. -/
  chordType : ChordType
  /-- Field `currentChord.active`. -/
  chordActive : Bool
  /-- Field `currentChord.lastPressTime`. -/
  lastPressTime : Nat
  /-- Field `currentChord.notesPlayed[4]` (written by `memset`, never read). -/
  notesPlayed : Nat → Bool

/-- Constant `const int PRESSURE_THRESHOLD = 50`. -/
def PRESSURE_THRESHOLD : Nat := 50

/-- Constant `const int CHORD_ANGLE_THRESHOLD = 50`. -/
def CHORD_ANGLE_THRESHOLD : Nat := 50

/-- Constant `const int COMBO_KEY = 15`. -/
def COMBO_KEY : Nat := 15

/-- Constant `const int A4_KEY = 1`. -/
def A4_KEY : Nat := 1

/-- Constant `const int B4_KEY = 2`. -/
def B4_KEY : Nat := 2

/-- Table `const byte NOTE_MAPPING[]` = C4, D4, E4, F4, G4, A4, B4. -/
def NOTE_MAPPING : Nat → Nat
  | 0 => 60
  | 1 => 62
  | 2 => 64
  | 3 => 65
  | 4 => 67
  | 5 => 69
  | 6 => 71
  | _ => 0

/-- Table `const std::vector<byte> CUSTOM_CHORDS[]` (sensor chords 0-4 and the
two combo-key chords 5-6). -/
def CUSTOM_CHORDS : Nat → List Nat
  | 0 => [60, 67, 72, 76]
  | 1 => [50, 57, 62, 65]
  | 2 => [52, 59, 64, 67]
  | 3 => [53, 60, 65, 69]
  | 4 => [55, 62, 67, 71]
  | 5 => [57, 64, 69, 72]
  | 6 => [59, 65, 71, 74]
  | _ => []

/-- 32-bit wraparound subtraction: the value of `a - b` on `unsigned long`. -/
def sub32 (a b : Nat) : Nat :=
  (a + (2 ^ 32 - b % 2 ^ 32)) % 2 ^ 32

/-- Function `MidiController::calculateVelocity`: Arduino
`map(min(pressure, 1000), PRESSURE_THRESHOLD, 1000, 70, 127)`, i.e.
`(x - 50) * (127 - 70) / (1000 - 50) + 70`.  The sketch only calls it with
pressures strictly above the threshold, where every intermediate of the C
`long` computation is nonnegative, so `Nat` arithmetic is exact there. -/
def calculateVelocity (pressure : Nat) : Nat :=
  (min pressure 1000 - PRESSURE_THRESHOLD) * (127 - 70) / (1000 - PRESSURE_THRESHOLD) + 70

/-- Function `MidiController::playNote`: emit a note-on and set the slot flag, unless
the slot is already active. -/
def playNote (noteIndex : Nat) (velocity : Nat) (s : MidiState) : MidiState × List Ev :=
  if s.notesActive noteIndex = false then
    ({ s with notesActive := fun j => if j = noteIndex then true else s.notesActive j },
     [Ev.on (NOTE_MAPPING noteIndex) velocity])
  else
    (s, [])

/-- Function `MidiController::releaseNote`: emit a note-off and clear the slot flag, if
the slot is active. -/
def releaseNote (noteIndex : Nat) (s : MidiState) : MidiState × List Ev :=
  if s.notesActive noteIndex = true then
    ({ s with notesActive := fun j => if j = noteIndex then false else s.notesActive j },
     [Ev.off (NOTE_MAPPING noteIndex)])
  else
    (s, [])

/-- The `chordIndex` scan of `MidiController::stopCurrentChord`: with the combo
latch, channel `A4_KEY` (then `B4_KEY`) with *nonzero* pressure selects chord
5 (then 6); otherwise an ascending scan of channels 0-4 in which the last
index with nonzero pressure wins. -/
def stopChordIndex (s : MidiState) : Option Nat :=
  if s.comboKeyActive then
    if s.pressureData A4_KEY > 0 then some 5
    else if s.pressureData B4_KEY > 0 then some 6
    else none
  else
    (List.range 5).foldl (fun acc i => if s.pressureData i > 0 then some i else acc) none

/-- Function `MidiController::stopCurrentChord`: when a chord is active, send note-off
for every pitch of `CUSTOM_CHORDS[chordIndex]` (if the scan found an index),
reset the arpeggio step and deactivate the chord. -/
def stopCurrentChord (s : MidiState) : MidiState × List Ev :=
  if s.chordActive = true then
    let evs : List Ev :=
      match stopChordIndex s with
      | some ci => (CUSTOM_CHORDS ci).map Ev.off
      | none => []
    ({ s with currentArpeggioStep := 0, chordActive := false }, evs)
  else
    (s, [])

/-- Function `MidiController::updateChordNotes`: recompute third/fifth/seventh from the
root and the chord type.  (The sketch adds on `byte`; no reachable root is
large enough for the addition to wrap.) -/
def updateChordNotes (s : MidiState) : MidiState :=
  match s.chordType with
  | ChordType.MAJOR =>
      { s with chordThird := s.chordRoot + 4, chordFifth := s.chordRoot + 7, chordSeventh := 0 }
  | ChordType.MINOR =>
      { s with chordThird := s.chordRoot + 3, chordFifth := s.chordRoot + 7, chordSeventh := 0 }
  | ChordType.AUGMENTED =>
      { s with chordThird := s.chordRoot + 4, chordFifth := s.chordRoot + 8, chordSeventh := 0 }
  | ChordType.DIMINISHED =>
      { s with chordThird := s.chordRoot + 3, chordFifth := s.chordRoot + 6, chordSeventh := 0 }
  | ChordType.SUS4 =>
      { s with chordThird := s.chordRoot + 5, chordFifth := s.chordRoot + 7, chordSeventh := 0 }
  | ChordType.SEVENTH =>
      { s with chordThird := s.chordRoot + 4, chordFifth := s.chordRoot + 7,
               chordSeventh := s.chordRoot + 10 }

/-- The retrigger block shared by the three trigger sites: `stopCurrentChord()`
followed by `currentChord.rootNote = NOTE_MAPPING[i]; updateChordNotes();
currentChord.lastPressTime = millis(); currentChord.active = true;
memset(currentChord.notesPlayed, false, ...)`. -/
def startChord (slot : Nat) (now : Nat) (s : MidiState) : MidiState × List Ev :=
  let p := stopCurrentChord s
  let s1 := updateChordNotes { p.1 with chordRoot := NOTE_MAPPING slot }
  ({ s1 with lastPressTime := now, chordActive := true, notesPlayed := fun _ => false }, p.2)

/-- One iteration of the `for` loop of `MidiController::handleSingleNotes`
(slot `i` in 0-4, whose pressure channel is also `i`). -/
def singleNoteStep (now : Nat) (i : Nat) (s : MidiState) : MidiState × List Ev :=
  if s.pressureData i > PRESSURE_THRESHOLD then
    let velocity := calculateVelocity (s.pressureData i)
    let p :=
      if s.chordActive = false ∨ s.chordRoot ≠ NOTE_MAPPING i then
        startChord i now s
      else
        (s, [])
    let q := playNote i velocity p.1
    (q.1, p.2 ++ q.2)
  else if s.notesActive i = true then
    let p := releaseNote i s
    let q :=
      if p.1.chordActive = true ∧ p.1.chordRoot = NOTE_MAPPING i then
        stopCurrentChord p.1
      else
        (p.1, [])
    (q.1, p.2 ++ q.2)
  else
    (s, [])

/-- Run a list of state transformers in order, concatenating their emissions. -/
def runSeq (fs : List (MidiState → MidiState × List Ev)) (s : MidiState) : MidiState × List Ev :=
  match fs with
  | [] => (s, [])
  | f :: rest =>
      let p := f s
      let q := runSeq rest p.1
      (q.1, p.2 ++ q.2)

/-- Function `MidiController::handleSingleNotes`: the loop over slots 0-4. -/
def handleSingleNotes (now : Nat) (s : MidiState) : MidiState × List Ev :=
  runSeq ((List.range 5).map (singleNoteStep now)) s

/-- Function `MidiController::handleComboNotes`: slot 5 (root A4, channel `A4_KEY`)
takes priority over slot 6 (root B4, channel `B4_KEY`); triggering slot 5
forces slot 1 off and triggering slot 6 forces slot 2 off; with neither
channel above threshold both combo slots are released and a combo-rooted
chord is stopped. -/
def handleComboNotes (now : Nat) (s : MidiState) : MidiState × List Ev :=
  if s.pressureData A4_KEY > PRESSURE_THRESHOLD then
    let velocity := calculateVelocity (s.pressureData A4_KEY)
    let p :=
      if s.chordActive = false ∨ s.chordRoot ≠ NOTE_MAPPING 5 then
        startChord 5 now s
      else
        (s, [])
    let q := playNote 5 velocity p.1
    let r := if q.1.notesActive 1 = true then releaseNote 1 q.1 else (q.1, [])
    (r.1, p.2 ++ q.2 ++ r.2)
  else if s.pressureData B4_KEY > PRESSURE_THRESHOLD then
    let velocity := calculateVelocity (s.pressureData B4_KEY)
    let p :=
      if s.chordActive = false ∨ s.chordRoot ≠ NOTE_MAPPING 6 then
        startChord 6 now s
      else
        (s, [])
    let q := playNote 6 velocity p.1
    let r := if q.1.notesActive 2 = true then releaseNote 2 q.1 else (q.1, [])
    (r.1, p.2 ++ q.2 ++ r.2)
  else
    let p := releaseNote 5 s
    let q := releaseNote 6 p.1
    let r :=
      if q.1.chordActive = true ∧
         (q.1.chordRoot = NOTE_MAPPING 5 ∨ q.1.chordRoot = NOTE_MAPPING 6) then
        stopCurrentChord q.1
      else
        (q.1, [])
    (r.1, p.2 ++ q.2 ++ r.2)

/-- Function `MidiController::checkComboKeys`: refresh the combo latch from channel
`COMBO_KEY` (releasing slots 5 and 6 on the latch's falling edge), then run
combo-mode or single-note-mode trigger evaluation. -/
def checkComboKeys (now : Nat) (s : MidiState) : MidiState × List Ev :=
  let newComboState : Bool := decide (s.pressureData COMBO_KEY > PRESSURE_THRESHOLD)
  let p :=
    if newComboState ≠ s.comboKeyActive then
      let s1 := { s with comboKeyActive := newComboState }
      if s1.comboKeyActive = false then
        let a := releaseNote 5 s1
        let b := releaseNote 6 a.1
        (b.1, a.2 ++ b.2)
      else
        (s1, [])
    else
      (s, [])
  let q :=
    if p.1.comboKeyActive = true then
      handleComboNotes now p.1
    else
      handleSingleNotes now p.1
  (q.1, p.2 ++ q.2)

/-- The first-match scan of `MidiController::handleChordPlayback`: with the
combo latch, channel `A4_KEY` (then `B4_KEY`) above threshold selects chord 5
(then 6); otherwise the first of channels 0-4 above threshold (`break`). -/
def playbackChordIndex (s : MidiState) : Option Nat :=
  if s.comboKeyActive then
    if s.pressureData A4_KEY > PRESSURE_THRESHOLD then some 5
    else if s.pressureData B4_KEY > PRESSURE_THRESHOLD then some 6
    else none
  else
    if s.pressureData 0 > PRESSURE_THRESHOLD then some 0
    else if s.pressureData 1 > PRESSURE_THRESHOLD then some 1
    else if s.pressureData 2 > PRESSURE_THRESHOLD then some 2
    else if s.pressureData 3 > PRESSURE_THRESHOLD then some 3
    else if s.pressureData 4 > PRESSURE_THRESHOLD then some 4
    else none

/-- Function `MidiController::handleChordPlayback`: arpeggiated playback, gated by the
chord being active and `abs(currentRoll) > CHORD_ANGLE_THRESHOLD`; a step
fires when `millis() - lastArpeggioTime > ARPEGGIO_DELAY`, turning off the
previous note only when `currentArpeggioStep > 0`. -/
def handleChordPlayback (now : Nat) (s : MidiState) : MidiState × List Ev :=
  if s.chordActive = false ∨ s.currentRoll.natAbs ≤ CHORD_ANGLE_THRESHOLD then
    ({ s with currentArpeggioStep := 0 }, [])
  else
    match playbackChordIndex s with
    | none => stopCurrentChord s
    | some ci =>
        let chord := CUSTOM_CHORDS ci
        if sub32 now s.lastArpeggioTime > s.arpeggioDelay then
          let offPrev : List Ev :=
            if s.currentArpeggioStep > 0 then
              [Ev.off (chord.getD (s.currentArpeggioStep - 1) 0)]
            else
              []
          ({ s with currentArpeggioStep := (s.currentArpeggioStep + 1) % chord.length,
                    lastArpeggioTime := now },
           offPrev ++ [Ev.on (chord.getD s.currentArpeggioStep 0) 100])
        else
          (s, [])

/-- Function `MidiController::checkSustain`: with no active chord, clear an asserted
sustain; with an active chord, sustain should hold iff
`millis() - currentChord.lastPressTime > 300`, and a control change is sent
whenever that differs from the current flag. -/
def checkSustain (now : Nat) (s : MidiState) : MidiState × List Ev :=
  if s.chordActive = false then
    if s.sustainActive = true then
      ({ s with sustainActive := false }, [Ev.cc 0])
    else
      (s, [])
  else
    let shouldSustain : Bool := decide (sub32 now s.lastPressTime > 300)
    if shouldSustain ≠ s.sustainActive then
      ({ s with sustainActive := shouldSustain }, [Ev.cc (if shouldSustain then 127 else 0)])
    else
      (s, [])

/-- Function `MidiController::handleControls`: runs `checkComboKeys`,
`handleChordPlayback`, `checkSustain` in that order. -/
def handleControls (now : Nat) (s : MidiState) : MidiState × List Ev :=
  let p := checkComboKeys now s
  let q := handleChordPlayback now p.1
  let r := checkSustain now q.1
  (r.1, p.2 ++ q.2 ++ r.2)

/-- Function `MidiController::updateSensorData`: store the roll and copy the 25
pressure values. -/
def updateSensorData (snap : Snapshot) (s : MidiState) : MidiState :=
  { s with currentRoll := snap.roll,
           pressureData := fun i => if i < 25 then snap.pressures i else 0 }

/-- The body of the BLE notify callback once a payload is accepted:
`updateSensorData` followed by `handleControls`. -/
def processSnapshot (snap : Snapshot) (now : Nat) (s : MidiState) : MidiState × List Ev :=
  handleControls now (updateSensorData snap s)

/-- Function `MidiController::allNotesOff`: the slot loop (whose body is exactly
`releaseNote(i)` for i = 0..6), then a sustain-off if sustain is asserted,
then `stopCurrentChord()`. -/
def allNotesOff (s : MidiState) : MidiState × List Ev :=
  let p := runSeq ((List.range 7).map releaseNote) s
  let q :=
    if p.1.sustainActive = true then
      ({ p.1 with sustainActive := false }, [Ev.cc 0])
    else
      (p.1, [])
  let r := stopCurrentChord q.1
  (r.1, p.2 ++ q.2 ++ r.2)

/-- Function `MidiController::setChordType`: store the type and recompute the chord
notes in place (no emission). -/
def setChordType (t : ChordType) (s : MidiState) : MidiState :=
  updateChordNotes { s with chordType := t }

/-- One textual command of the serial console. -/
inductive Cmd where
  | c
  | major | minor | aug | dim | sus4 | seventh
  | arp (ms : Nat)
deriving DecidableEq, Repr

/-- The serial-command dispatch in `loop()`. -/
def execCmd (cmd : Cmd) (s : MidiState) : MidiState × List Ev :=
  match cmd with
  | Cmd.c => allNotesOff s
  | Cmd.major => (setChordType ChordType.MAJOR s, [])
  | Cmd.minor => (setChordType ChordType.MINOR s, [])
  | Cmd.aug => (setChordType ChordType.AUGMENTED s, [])
  | Cmd.dim => (setChordType ChordType.DIMINISHED s, [])
  | Cmd.sus4 => (setChordType ChordType.SUS4 s, [])
  | Cmd.seventh => (setChordType ChordType.SEVENTH s, [])
  | Cmd.arp ms => ({ s with arpeggioDelay := ms }, [])

/-- One iteration of the Arduino `loop()` in the connected steady state: with
no pending serial command it only runs `bleManager.loop()` (a no-op while
connected) and `delay(10)`; it performs no controller work at all. -/
def loopIter (cmd : Option Cmd) (_now : Nat) (s : MidiState) : MidiState × List Ev :=
  match cmd with
  | none => (s, [])
  | some cm => execCmd cm s

/-- The BLE notify lambda of `BleManager::setupNotifications`: payloads
shorter than 66 bytes or not starting with `0xAB 0xCD` are dropped; otherwise
the roll float is decoded from offset 6 (the float decoding itself is kept
abstract as `decodeRoll`) and the 25 big-endian 16-bit pressures from offset
14, and the snapshot is processed. -/
def bleNotify (decodeRoll : List Nat → Int) (payload : List Nat) (now : Nat)
    (s : MidiState) : MidiState × List Ev :=
  if payload.length < 66 ∨ payload.getD 0 0 ≠ 0xAB ∨ payload.getD 1 0 ≠ 0xCD then
    (s, [])
  else
    let snap : Snapshot :=
      { roll := decodeRoll payload,
        pressures := fun i => (payload.getD (14 + i * 2) 0) % 256 * 256 + (payload.getD (15 + i * 2) 0) % 256 }
    processSnapshot snap now s

/-- The state at the end of `setup()`: all globals at their initialisers. -/
def initialState : MidiState :=
  { pressureData := fun _ => 0
    notesActive := fun _ => false
    currentRoll := 0
    sustainActive := false
    comboKeyActive := false
    arpeggioDelay := 200
    lastArpeggioTime := 0
    currentArpeggioStep := 0
    chordRoot := 0
    chordThird := 0
    chordFifth := 0
    chordSeventh := 0
    chordType := ChordType.MAJOR
    chordActive := false
    lastPressTime := 0
    notesPlayed := fun _ => false }

/-- Process a list of timed snapshots in order, concatenating emissions. -/
def runSnapshots (steps : List (Snapshot × Nat)) (s : MidiState) : MidiState × List Ev :=
  match steps with
  | [] => (s, [])
  | (snap, now) :: rest =>
      let p := processSnapshot snap now s
      let q := runSnapshots rest p.1
      (q.1, p.2 ++ q.2)

/-- The concatenated trigger-evaluation (`checkComboKeys`) emissions of a run
of timed snapshots: the slice of each snapshot's emissions produced by slot
trigger/release handling, excluding arpeggio-playback and sustain events. -/
def trigTrace (steps : List (Snapshot × Nat)) (s : MidiState) : List Ev :=
  match steps with
  | [] => []
  | (snap, now) :: rest =>
      let s0 := updateSensorData snap s
      let p := checkComboKeys now s0
      let q := handleChordPlayback now p.1
      let r := checkSustain now q.1
      p.2 ++ trigTrace rest r.1

/-- Build a pressure map from an association list (all other channels read 0). -/
def pressuresOf (l : List (Nat × Nat)) : Nat → Nat :=
  fun i => ((l.filter (fun q => q.1 == i)).headD (0, 0)).2

/-- Fixture: combo latch held (channel 15) and combo channel B (channel 2)
pressed; A idle. -/
def snapComboB : Snapshot :=
  { roll := 0, pressures := pressuresOf [(15, 100), (2, 100)] }

/-- Fixture: combo latch held and both combo channels A (1) and B (2) pressed. -/
def snapComboAB : Snapshot :=
  { roll := 0, pressures := pressuresOf [(15, 100), (1, 100), (2, 100)] }

/-- Fixture: channel 0 at pressure 200 with the hand rolled past the arpeggio
angle threshold. -/
def snapArp : Snapshot :=
  { roll := 60, pressures := pressuresOf [(0, 200)] }

/-- Fixture: channel 0 at pressure 200, hand flat (the §8 scenario snapshot). -/
def snapPress200 : Snapshot :=
  { roll := 0, pressures := pressuresOf [(0, 200)] }

/-- Fixture: channel 0 at pressure 200 (above threshold, triggering) and
channel 3 at pressure 10 (below threshold but nonzero), hand flat. -/
def snapTwoChannels : Snapshot :=
  { roll := 0, pressures := pressuresOf [(0, 200), (3, 10)] }

/-- Fixture run: snapshot with combo+B, then a snapshot with combo+A+B ten
milliseconds later, from the start-up state. -/
def comboRun2 : MidiState × List Ev :=
  runSnapshots [(snapComboB, 0), (snapComboAB, 10)] initialState

/-- Fixture run: four rolled snapshots of channel 0, spaced 300 ms apart, from
the start-up state; each spacing exceeds the 200 ms arpeggio delay, so four
arpeggio steps fire and the cursor wraps back to 0. -/
def arpRun4 : MidiState × List Ev :=
  runSnapshots [(snapArp, 300), (snapArp, 600), (snapArp, 900), (snapArp, 1200)] initialState

/-- Fixture state: the controller right after processing `snapTwoChannels` at
time 0 from the start-up state (chord on root 60 active, slot 0 sounding,
channel 3 reading a nonzero sub-threshold pressure). -/
def chordPressState : MidiState :=
  (processSnapshot snapTwoChannels 0 initialState).1

/-- Modelled from the spec: the `on_tick(now)` operation that §4.3 of the
specification says the periodic ≈10 ms loop performs - re-running arpeggio
step evaluation (step d) and sustain evaluation (step e) on the last stored
snapshot.  The sketch's `loop()` contains no such call; this definition
follows the spec's words and exists only to compare against `loopIter`. -/
def onTickSpec (now : Nat) (s : MidiState) : MidiState × List Ev :=
  let q := handleChordPlayback now s
  let r := checkSustain now q.1
  (r.1, q.2 ++ r.2)

/-- The chord-stop note-set resolution in the specification's words (§4.3):
combo slots take priority (5 before 6) when the latch is active; otherwise,
among single-note channels 0-4 scanned in ascending order, the last index
with nonzero pressure wins (equivalently: the first match of the descending
scan). -/
def chordStopResolutionSpec (s : MidiState) : Option Nat :=
  if s.comboKeyActive then
    if s.pressureData A4_KEY > 0 then some 5
    else if s.pressureData B4_KEY > 0 then some 6
    else none
  else
    (List.range 5).reverse.find? (fun i => decide (0 < s.pressureData i))

/-- Recognises a note-on of one of the two combo-gated slots (slot 5 sounds
pitch 69, slot 6 sounds pitch 71). -/
def isComboSlotOn : Ev → Bool
  | Ev.on 69 _ => true
  | Ev.on 71 _ => true
  | _ => false

/-- Scan a trace keeping a pending-note-on marker for pitch `p`: a note-on of
`p` raises it, a note-off of `p` lowers it, everything else keeps it. -/
def pitchScan (p : Nat) : List Ev → Bool → Bool
  | [], b => b
  | Ev.on q _ :: t, b => pitchScan p t (if q = p then true else b)
  | Ev.off q :: t, b => pitchScan p t (if q = p then false else b)
  | Ev.cc _ :: t, b => pitchScan p t b

/-- Alternation check for pitch `p`: starting with pending marker `b`, every
note-on of `p` must find the marker lowered (no double note-on without an
intervening note-off of `p`). -/
def altOk (p : Nat) : List Ev → Bool → Bool
  | [], _ => true
  | Ev.on q _ :: t, b =>
      if q = p then !b && altOk p t true else altOk p t b
  | Ev.off q :: t, b => altOk p t (if q = p then false else b)
  | Ev.cc _ :: t, b => altOk p t b

/-- Invariant carrier for the trigger-idempotence proof: starting from state
`s` with a pending marker `b` no stronger than the slot-`i` active flag, the
emitted trace alternates for slot `i`'s pitch and the final marker stays no
stronger than the final active flag. -/
def StepOK (i : Nat) (s : MidiState) (r : MidiState × List Ev) : Prop :=
  ∀ b : Bool, (b = true → s.notesActive i = true) →
    altOk (NOTE_MAPPING i) r.2 b = true ∧
    (pitchScan (NOTE_MAPPING i) r.2 b = true → r.1.notesActive i = true)

/-! ## General lemmas about the embedding -/

theorem sub32_of_lt {a b : Nat} (hb : b ≤ a) (ha : a < 2 ^ 32) : sub32 a b = a - b := by
  unfold sub32
  have h32 : (2 : Nat) ^ 32 = 4294967296 := by norm_num
  rw [h32] at ha ⊢
  omega

/-! ## C9: malformed payloads are silently discarded -/

/-- **C9.** A notification payload shorter than 66 bytes, or whose first two
bytes are not `0xAB 0xCD`, is dropped by the notify lambda: the state is
returned unchanged (pressures, roll, note flags, chord state and sustain flag
included) and no event is emitted. -/
theorem C9_malformed_payload_discarded (decodeRoll : List Nat → Int)
    (payload : List Nat) (now : Nat) (s : MidiState)
    (h : payload.length < 66 ∨ payload.getD 0 0 ≠ 0xAB ∨ payload.getD 1 0 ≠ 0xCD) :
    bleNotify decodeRoll payload now s = (s, []) := by
  unfold bleNotify
  rw [if_pos h]

/-- **C9, witness.** The empty payload is dropped from the start-up state. -/
theorem C9_malformed_payload_discarded_witness :
    ([] : List Nat).length < 66 ∧
    bleNotify (fun _ => 0) [] 0 initialState = (initialState, []) :=
  ⟨by decide,
   C9_malformed_payload_discarded (fun _ => 0) [] 0 initialState (Or.inl (by decide))⟩

/-! ## C10: stopping a chord with all scanned channels at zero -/

/-- **C10.** If the chord is stopped while every scanned pressure channel
reads zero (channels `A4_KEY` and `B4_KEY` when the combo latch is active,
otherwise channels 0-4), the chord-active flag is cleared and the arpeggio
cursor reset to 0, but no event at all is emitted - in particular no note-off
for any chord-set pitch, so a sounding chord note is left sounding. -/
theorem C10_silent_chord_stop (s : MidiState)
    (hact : s.chordActive = true)
    (hz : if s.comboKeyActive then
            s.pressureData A4_KEY = 0 ∧ s.pressureData B4_KEY = 0
          else ∀ i, i < 5 → s.pressureData i = 0) :
    stopCurrentChord s = ({ s with currentArpeggioStep := 0, chordActive := false }, []) := by
  have hidx : stopChordIndex s = none := by
    unfold stopChordIndex
    cases hc : s.comboKeyActive with
    | true =>
        rw [hc] at hz
        simp only [if_true] at hz ⊢
        simp [hz.1, hz.2]
    | false =>
        rw [hc] at hz
        simp only [Bool.false_eq_true, if_false] at hz ⊢
        have h0 := hz 0 (by omega)
        have h1 := hz 1 (by omega)
        have h2 := hz 2 (by omega)
        have h3 := hz 3 (by omega)
        have h4 := hz 4 (by omega)
        have hr : List.range 5 = [0, 1, 2, 3, 4] := rfl
        rw [hr]
        simp [h0, h1, h2, h3, h4]
  unfold stopCurrentChord
  simp [hact, hidx]

/-- **C10, witness.** A state with an active chord and all pressures zero. -/
theorem C10_silent_chord_stop_witness :
    stopCurrentChord { initialState with chordActive := true } =
      ({ { initialState with chordActive := true } with
          currentArpeggioStep := 0, chordActive := false }, []) := by
  apply C10_silent_chord_stop { initialState with chordActive := true } rfl
  intro i hi
  rfl

/-! ## C1: the main loop performs no arpeggio/sustain evaluation -/

/-- **C1, counterexample.** The ≈10 ms main loop does *not* re-run arpeggio
and sustain evaluation: in a reachable state with an active chord (triggered
at time 0) and sustain not yet asserted, an iteration of `loop()` with no
pending serial command at time 1000 ms emits nothing and changes nothing,
whereas the `on_tick` operation described by the spec would emit the sustain
control change.  So if BLE notifications pause, the sustain timeout (and
arpeggio advancement) does not fire. -/
theorem C1_counterexample :
    chordPressState.chordActive = true ∧
    chordPressState.sustainActive = false ∧
    chordPressState.lastPressTime = 0 ∧
    loopIter none 1000 chordPressState = (chordPressState, []) ∧
    (onTickSpec 1000 chordPressState).2 = [Ev.cc 127] ∧
    (loopIter none 1000 chordPressState).2 ≠ (onTickSpec 1000 chordPressState).2 := by
  refine ⟨by decide, by decide, by decide, rfl, by decide, by decide⟩

/-- **C1, amended.** An iteration of the sketch's main `loop()` with no
pending serial command leaves the controller state untouched and emits no
event: time-based transitions run only when a snapshot notification arrives
(`processSnapshot`), never from the periodic loop. -/
theorem C1_loop_runs_no_evaluation (s : MidiState) (now : Nat) :
    loopIter none now s = (s, []) ∧
    (loopIter none now s).1.currentArpeggioStep = s.currentArpeggioStep ∧
    (loopIter none now s).1.sustainActive = s.sustainActive :=
  ⟨rfl, rfl, rfl⟩

/-! ## C7: the velocity formula -/

/-- **C7, counterexample.** Pressure 200 yields velocity 79, not approximately
77: the §8 scenario snapshot (channel 0 at 200, hand flat) emits
`note-on(60, 79)`. -/
theorem C7_counterexample :
    calculateVelocity 200 = 79 ∧
    (processSnapshot snapPress200 0 initialState).2 = [Ev.on 60 79] ∧
    calculateVelocity 200 ≠ 77 ∧
    ¬(76 ≤ calculateVelocity 200 ∧ calculateVelocity 200 ≤ 78) := by
  refine ⟨by decide, by decide, by decide, by decide⟩

/-- **C7, amended.** For every pressure strictly above the threshold 50, the
velocity is the integer linear map of `min(pressure, 1000)` from [50, 1000]
to [70, 127]; clamping at the output bounds never binds (the value is already
in range).  In particular pressure 50 maps to 70, 1000 to 127, 525 to 98 and
200 to 79. -/
theorem C7_velocity_formula (p : Nat) (_h : PRESSURE_THRESHOLD < p) :
    calculateVelocity p =
      max 70 (min 127
        ((min p 1000 - PRESSURE_THRESHOLD) * (127 - 70) / (1000 - PRESSURE_THRESHOLD) + 70)) ∧
    calculateVelocity 50 = 70 ∧ calculateVelocity 1000 = 127 ∧
    calculateVelocity 525 = 98 ∧ calculateVelocity 200 = 79 := by
  refine ⟨?_, by decide, by decide, by decide, by decide⟩
  unfold calculateVelocity PRESSURE_THRESHOLD
  omega

/-- **C7, witness.** The formula at pressure 300. -/
theorem C7_velocity_formula_witness :
    PRESSURE_THRESHOLD < 300 ∧
    calculateVelocity 300 =
      max 70 (min 127
        ((min 300 1000 - PRESSURE_THRESHOLD) * (127 - 70) / (1000 - PRESSURE_THRESHOLD) + 70)) :=
  ⟨by decide, (C7_velocity_formula 300 (by decide)).1⟩

/-! ## C6: sustain timing -/

/-- **C6.** Sustain behaviour of `checkSustain`.  First: with an active chord
triggered at time 0 and sustain not asserted, an evaluation at `now` emits
the sustain-on control change (value 127) exactly when `now > 300` ms, and
the flag afterwards records exactly that - so the first evaluation observed
with `now > 300` emits sustain-on and no earlier one does.  Second: when the
chord is inactive while sustain is asserted, sustain-off (value 0) is
emitted.  Third: when a retrigger has reset the last-trigger time so that the
elapsed time is at most 300 ms while sustain is asserted, sustain-off is
emitted. -/
theorem C6_sustain_timing :
    (∀ (s : MidiState) (now : Nat),
        s.chordActive = true → s.lastPressTime = 0 → s.sustainActive = false →
        now < 2 ^ 32 →
        (checkSustain now s).2 = (if 300 < now then [Ev.cc 127] else []) ∧
        (checkSustain now s).1.sustainActive = decide (300 < now)) ∧
    (∀ (s : MidiState) (now : Nat),
        s.chordActive = false → s.sustainActive = true →
        checkSustain now s = ({ s with sustainActive := false }, [Ev.cc 0])) ∧
    (∀ (s : MidiState) (now : Nat),
        s.chordActive = true → s.sustainActive = true →
        sub32 now s.lastPressTime ≤ 300 →
        checkSustain now s = ({ s with sustainActive := false }, [Ev.cc 0])) := by
  refine ⟨?_, ?_, ?_⟩
  · intro s now h1 h2 h3 h4
    have hs : sub32 now s.lastPressTime = now := by
      rw [h2]
      have := sub32_of_lt (Nat.zero_le now) h4
      simpa using this
    unfold checkSustain
    simp only [h1, hs, h3]
    by_cases hn : 300 < now
    · simp [hn]
    · simp [hn, h3]
  · intro s now h1 h2
    unfold checkSustain
    simp [h1, h2]
  · intro s now h1 h2 h3
    have hs : ¬ (300 < sub32 now s.lastPressTime) := by omega
    unfold checkSustain
    simp [h1, h2, hs]

/-- **C6, witness.** In the reachable chord-active state, evaluation at
301 ms emits sustain-on. -/
theorem C6_sustain_timing_witness :
    (chordPressState.chordActive = true ∧ chordPressState.lastPressTime = 0 ∧
     chordPressState.sustainActive = false ∧ 301 < 2 ^ 32) ∧
    (checkSustain 301 chordPressState).2 = [Ev.cc 127] := by
  refine ⟨⟨by decide, by decide, by decide, by norm_num⟩, ?_⟩
  have h := (C6_sustain_timing.1 chordPressState 301 (by decide) (by decide) (by decide)
    (by norm_num)).1
  simpa using h

/-! ## C3: the wrapped-around arpeggio step skips the previous note-off -/

/-- **C3.** After four arpeggio steps of the four-note chord sequence the
cursor has wrapped back to 0 while the chord is still active, and pitch 76
(the fourth chord note) has been turned on; the fifth step - which is not the
first step since activation - then emits only the note-on of pitch 60, with
no preceding note-off of the previous step's pitch 76 (the note-off guard
tests `currentArpeggioStep > 0`, which fails after the wrap, contradicting
the turn-off-previous-note intent). -/
theorem C3_wrapped_step_skips_noteoff :
    arpRun4.1.currentArpeggioStep = 0 ∧
    arpRun4.1.chordActive = true ∧
    Ev.on 76 100 ∈ arpRun4.2 ∧
    (processSnapshot snapArp 1500 arpRun4.1).2 = [Ev.on 60 100] ∧
    Ev.off 76 ∉ (processSnapshot snapArp 1500 arpRun4.1).2 := by
  refine ⟨by decide, by decide, by decide, by decide, by decide⟩

/-! ## C5: chord-stop note-set resolution -/

/-- **C5.** The chord-stop scan of the sketch agrees with the specification's
resolution policy: with the combo latch active, combo slot 5 is checked
before combo slot 6 (nonzero pressure on their channels); otherwise, among
single-note channels 0-4 scanned in ascending order, the last index with
nonzero pressure wins.  Moreover the note-offs emitted when stopping an
active chord are exactly the chord set of the resolved index (and nothing
when no index resolves or no chord is active). -/
theorem C5_chord_stop_resolution (s : MidiState) :
    stopChordIndex s = chordStopResolutionSpec s ∧
    (stopCurrentChord s).2 =
      (if s.chordActive = true then
        (chordStopResolutionSpec s).elim [] (fun ci => (CUSTOM_CHORDS ci).map Ev.off)
      else []) := by
  have key : stopChordIndex s = chordStopResolutionSpec s := by
    unfold stopChordIndex chordStopResolutionSpec
    cases hc : s.comboKeyActive with
    | true => simp
    | false =>
        simp only [Bool.false_eq_true, if_false]
        have hr : List.range 5 = [0, 1, 2, 3, 4] := rfl
        rw [hr]
        by_cases h0 : 0 < s.pressureData 0 <;>
          by_cases h1 : 0 < s.pressureData 1 <;>
          by_cases h2 : 0 < s.pressureData 2 <;>
          by_cases h3 : 0 < s.pressureData 3 <;>
          by_cases h4 : 0 < s.pressureData 4 <;>
          simp [h0, h1, h2, h3, h4, List.find?]
  refine ⟨key, ?_⟩
  unfold stopCurrentChord
  cases hact : s.chordActive with
  | false => simp
  | true =>
      rw [← key]
      cases hidx : stopChordIndex s with
      | none => simp [hidx]
      | some ci => simp [hidx]

/-! ## C2: combo-gated slots -/

theorem filterCombo_map_off (xs : List Nat) :
    (xs.map Ev.off).filter isComboSlotOn = [] := by
  induction xs with
  | nil => rfl
  | cons x t ih => simp [isComboSlotOn, ih]

theorem filterCombo_stop (s : MidiState) :
    ((stopCurrentChord s).2).filter isComboSlotOn = [] := by
  unfold stopCurrentChord
  split
  · cases stopChordIndex s with
    | none => rfl
    | some ci => simpa using filterCombo_map_off (CUSTOM_CHORDS ci)
  · rfl

theorem filterCombo_startChord (slot now : Nat) (s : MidiState) :
    ((startChord slot now s).2).filter isComboSlotOn = [] := by
  unfold startChord
  exact filterCombo_stop s

theorem filterCombo_release (j : Nat) (s : MidiState) :
    ((releaseNote j s).2).filter isComboSlotOn = [] := by
  unfold releaseNote
  split
  · simp [isComboSlotOn]
  · rfl

theorem filterCombo_playNote_le (j v : Nat) (s : MidiState) :
    (((playNote j v s).2).filter isComboSlotOn).length ≤ 1 := by
  unfold playNote
  split
  · cases h : isComboSlotOn (Ev.on (NOTE_MAPPING j) v) <;> simp [h]
  · simp

theorem filterCombo_playNote_single (j v : Nat) (s : MidiState) (hj : j < 5) :
    ((playNote j v s).2).filter isComboSlotOn = [] := by
  unfold playNote
  split
  · interval_cases j <;> simp [NOTE_MAPPING, isComboSlotOn]
  · rfl

theorem filterCombo_singleNoteStep (now i : Nat) (s : MidiState) (hi : i < 5) :
    ((singleNoteStep now i s).2).filter isComboSlotOn = [] := by
  unfold singleNoteStep
  split
  · simp only [List.filter_append, List.append_eq_nil]
    constructor
    · split
      · exact filterCombo_startChord i now s
      · rfl
    · exact filterCombo_playNote_single i _ _ hi
  · split
    · simp only [List.filter_append, List.append_eq_nil]
      refine ⟨filterCombo_release i s, ?_⟩
      split
      · exact filterCombo_stop _
      · rfl
    · rfl

theorem filterCombo_runSeq (fs : List (MidiState → MidiState × List Ev))
    (h : ∀ f ∈ fs, ∀ t, ((f t).2).filter isComboSlotOn = []) (s : MidiState) :
    ((runSeq fs s).2).filter isComboSlotOn = [] := by
  induction fs generalizing s with
  | nil => rfl
  | cons f rest ih =>
      simp only [runSeq, List.filter_append, List.append_eq_nil]
      exact ⟨h f (by simp) s, ih (fun g hg t => h g (by simp [hg]) t) _⟩

theorem filterCombo_handleSingleNotes (now : Nat) (s : MidiState) :
    ((handleSingleNotes now s).2).filter isComboSlotOn = [] := by
  unfold handleSingleNotes
  refine filterCombo_runSeq _ ?_ s
  intro f hf t
  rcases List.mem_map.1 hf with ⟨i, hi, rfl⟩
  exact filterCombo_singleNoteStep now i t (by simpa using List.mem_range.1 hi)

theorem filterCombo_trigBlock (slot now : Nat) (s : MidiState) (c : Prop) [Decidable c] :
    (((if c then startChord slot now s else (s, [])).2).filter isComboSlotOn) = [] := by
  split
  · exact filterCombo_startChord slot now s
  · rfl

theorem filterCombo_releaseBlock (j : Nat) (s : MidiState) (c : Prop) [Decidable c] :
    (((if c then releaseNote j s else (s, [])).2).filter isComboSlotOn) = [] := by
  split
  · exact filterCombo_release j s
  · rfl

theorem filterCombo_stopBlock (s : MidiState) (c : Prop) [Decidable c] :
    (((if c then stopCurrentChord s else (s, [])).2).filter isComboSlotOn) = [] := by
  split
  · exact filterCombo_stop s
  · rfl

theorem filterCombo_append3_le (l1 l2 l3 : List Ev) (h1 : l1.filter isComboSlotOn = [])
    (h2 : (l2.filter isComboSlotOn).length ≤ 1) (h3 : l3.filter isComboSlotOn = []) :
    (((l1 ++ l2 ++ l3).filter isComboSlotOn)).length ≤ 1 := by
  simp [List.filter_append, h1, h3, h2]

theorem filterCombo_handleComboNotes (now : Nat) (s : MidiState) :
    (((handleComboNotes now s).2).filter isComboSlotOn).length ≤ 1 := by
  unfold handleComboNotes
  split
  · exact filterCombo_append3_le _ _ _ (filterCombo_trigBlock 5 now s _)
      (filterCombo_playNote_le 5 _ _) (filterCombo_releaseBlock 1 _ _)
  · split
    · exact filterCombo_append3_le _ _ _ (filterCombo_trigBlock 6 now s _)
        (filterCombo_playNote_le 6 _ _) (filterCombo_releaseBlock 2 _ _)
    · exact filterCombo_append3_le _ _ _ (filterCombo_release 5 s)
        (by simp [filterCombo_release]) (filterCombo_stopBlock _ _)

/-- **C2, amended.** In any single trigger-evaluation pass (`checkComboKeys`),
at most one note-on of a combo-gated slot (slot 5, pitch 69, or slot 6, pitch
71) is emitted - slot 5's branch takes priority and single-note mode never
emits either.  (The stronger claimed flag invariant is false: triggering slot
5 does not release slot 6, see the counterexample.) -/
theorem C2_single_combo_trigger (s : MidiState) (now : Nat) :
    (((checkComboKeys now s).2).filter isComboSlotOn).length ≤ 1 := by
  unfold checkComboKeys
  simp only [List.filter_append, List.length_append]
  split
  · split
    · simp only [List.filter_append, List.length_append, filterCombo_release,
        List.length_nil, Nat.zero_add, Nat.add_zero]
      split
      · exact filterCombo_handleComboNotes now _
      · simp [filterCombo_handleSingleNotes]
    · simp only [List.filter_nil, List.length_nil, Nat.zero_add]
      split
      · exact filterCombo_handleComboNotes now _
      · simp [filterCombo_handleSingleNotes]
  · simp only [List.filter_nil, List.length_nil, Nat.zero_add]
    split
    · exact filterCombo_handleComboNotes now _
    · simp [filterCombo_handleSingleNotes]

/-- **C2, counterexample.** From the start-up state, a snapshot holding the
combo latch with channel B pressed activates slot 6; a following snapshot
with both combo channels pressed triggers slot 5 (priority branch), which
releases slot *1*, not slot 6 - afterwards the active flags of slots 5 and 6
are both set, refuting the at-most-one-primary invariant. -/
theorem C2_counterexample :
    comboRun2.1.notesActive 5 = true ∧ comboRun2.1.notesActive 6 = true ∧
    Ev.on 69 73 ∈ comboRun2.2 ∧ Ev.on 71 73 ∈ comboRun2.2 := by
  refine ⟨by decide, by decide, by decide, by decide⟩

/-! ## C4: allNotesOff -/

theorem releaseNote_notesActive (j k : Nat) (s : MidiState) :
    (releaseNote j s).1.notesActive k = if k = j then false else s.notesActive k := by
  unfold releaseNote
  split
  · rfl
  · by_cases hk : k = j
    · subst hk; simp_all
    · simp [hk]

theorem releaseNote_fields (j : Nat) (s : MidiState) :
    (releaseNote j s).1.pressureData = s.pressureData ∧
    (releaseNote j s).1.comboKeyActive = s.comboKeyActive ∧
    (releaseNote j s).1.sustainActive = s.sustainActive ∧
    (releaseNote j s).1.chordActive = s.chordActive := by
  unfold releaseNote
  split
  · exact ⟨rfl, rfl, rfl, rfl⟩
  · exact ⟨rfl, rfl, rfl, rfl⟩

theorem runSeq_releases (l : List Nat) (s : MidiState) (hl : l.Nodup) :
    (runSeq (l.map releaseNote) s).2 =
      (l.filter (fun i => s.notesActive i)).map (fun i => Ev.off (NOTE_MAPPING i)) ∧
    (∀ k, (runSeq (l.map releaseNote) s).1.notesActive k =
      if k ∈ l then false else s.notesActive k) ∧
    (runSeq (l.map releaseNote) s).1.pressureData = s.pressureData ∧
    (runSeq (l.map releaseNote) s).1.comboKeyActive = s.comboKeyActive ∧
    (runSeq (l.map releaseNote) s).1.sustainActive = s.sustainActive ∧
    (runSeq (l.map releaseNote) s).1.chordActive = s.chordActive := by
  induction l generalizing s with
  | nil => exact ⟨rfl, fun k => by simp [runSeq], rfl, rfl, rfl, rfl⟩
  | cons i t ih =>
      have hit : i ∉ t := (List.nodup_cons.1 hl).1
      have htl : t.Nodup := (List.nodup_cons.1 hl).2
      have ihs := ih (releaseNote i s).1 htl
      have hfc : t.filter (fun j => (releaseNote i s).1.notesActive j) =
          t.filter (fun j => s.notesActive j) := by
        apply List.filter_congr
        intro j hj
        have hji : j ≠ i := fun hji => hit (hji ▸ hj)
        rw [releaseNote_notesActive i j s, if_neg hji]
      constructor
      · show ((releaseNote i s).2 ++ (runSeq (t.map releaseNote) (releaseNote i s).1).2) = _
        rw [ihs.1, hfc]
        unfold releaseNote
        cases hfl : s.notesActive i with
        | true => simp [hfl, List.filter_cons]
        | false => simp [hfl, List.filter_cons]
      · refine ⟨?_, ?_, ?_, ?_, ?_⟩
        · intro k
          show (runSeq (t.map releaseNote) (releaseNote i s).1).1.notesActive k = _
          rw [ihs.2.1 k, releaseNote_notesActive i k s]
          by_cases hkt : k ∈ t
          · simp [hkt, List.mem_cons]
          · by_cases hki : k = i
            · simp [hkt, hki]
            · simp [hkt, hki]
        · show (runSeq (t.map releaseNote) (releaseNote i s).1).1.pressureData = _
          rw [ihs.2.2.1, (releaseNote_fields i s).1]
        · show (runSeq (t.map releaseNote) (releaseNote i s).1).1.comboKeyActive = _
          rw [ihs.2.2.2.1, (releaseNote_fields i s).2.1]
        · show (runSeq (t.map releaseNote) (releaseNote i s).1).1.sustainActive = _
          rw [ihs.2.2.2.2.1, (releaseNote_fields i s).2.2.1]
        · show (runSeq (t.map releaseNote) (releaseNote i s).1).1.chordActive = _
          rw [ihs.2.2.2.2.2, (releaseNote_fields i s).2.2.2]

theorem stopChordIndex_congr (s t : MidiState) (hp : t.pressureData = s.pressureData)
    (hc : t.comboKeyActive = s.comboKeyActive) : stopChordIndex t = stopChordIndex s := by
  unfold stopChordIndex
  rw [hp, hc]

theorem stopCurrentChord_evs (s : MidiState) :
    (stopCurrentChord s).2 = (if s.chordActive = true then
      (stopChordIndex s).elim [] (fun ci => (CUSTOM_CHORDS ci).map Ev.off) else []) := by
  unfold stopCurrentChord
  cases hact : s.chordActive with
  | true =>
      simp only [if_true]
      cases stopChordIndex s <;> simp
  | false => simp

theorem stopCurrentChord_state (s : MidiState) :
    (stopCurrentChord s).1.notesActive = s.notesActive ∧
    (stopCurrentChord s).1.sustainActive = s.sustainActive ∧
    (stopCurrentChord s).1.chordActive = false := by
  unfold stopCurrentChord
  cases hact : s.chordActive with
  | true => exact ⟨rfl, rfl, rfl⟩
  | false => exact ⟨rfl, rfl, hact⟩

theorem runSeq_releases_nil (l : List Nat) (s : MidiState)
    (h : ∀ i ∈ l, s.notesActive i = false) :
    runSeq (l.map releaseNote) s = (s, []) := by
  induction l with
  | nil => rfl
  | cons i t ih =>
      have hi : s.notesActive i = false := h i (List.mem_cons_self i t)
      have hrel : releaseNote i s = (s, []) := by
        unfold releaseNote
        rw [if_neg (by simp [hi])]
      show ((runSeq (t.map releaseNote) (releaseNote i s).1).1,
            (releaseNote i s).2 ++ (runSeq (t.map releaseNote) (releaseNote i s).1).2) = _
      rw [hrel]
      have ht := ih (fun j hj => h j (List.mem_cons_of_mem i hj))
      simpa using ht

theorem allNotesOff_nil (s : MidiState) (hfl : ∀ i, i < 7 → s.notesActive i = false)
    (hsus : s.sustainActive = false) (hch : s.chordActive = false) :
    allNotesOff s = (s, []) := by
  unfold allNotesOff
  have hrs : runSeq ((List.range 7).map releaseNote) s = (s, []) :=
    runSeq_releases_nil _ s (fun i hi => hfl i (List.mem_range.1 hi))
  rw [hrs]
  simp only [hsus]
  rw [if_neg (by simp)]
  have hstop : stopCurrentChord s = (s, []) := by
    unfold stopCurrentChord
    rw [if_neg (by simp [hch])]
  rw [hstop]
  rfl

/-- **C4, amended.** For every prior state, `allNotesOff` emits exactly one
note-off per note slot whose active flag is set (the release loop, in slot
order), then one sustain-off control change iff sustain was asserted, then -
when a chord is active - the note-offs of the chord set selected by the
pressure-scan resolution (`stopChordIndex`), which may be empty when every
scanned channel reads zero and may be a different slot's set than the active
chord's; afterwards every active flag (slots, sustain, chord) is cleared, and
a second consecutive call emits nothing and changes nothing. -/
theorem C4_all_notes_off (s : MidiState) :
    (allNotesOff s).2 =
      ((List.range 7).filter (fun i => s.notesActive i)).map (fun i => Ev.off (NOTE_MAPPING i))
      ++ (if s.sustainActive = true then [Ev.cc 0] else [])
      ++ (if s.chordActive = true then
            (stopChordIndex s).elim [] (fun ci => (CUSTOM_CHORDS ci).map Ev.off)
          else []) ∧
    (allNotesOff s).1.notesActive = (fun k => if k < 7 then false else s.notesActive k) ∧
    (allNotesOff s).1.sustainActive = false ∧
    (allNotesOff s).1.chordActive = false ∧
    allNotesOff (allNotesOff s).1 = ((allNotesOff s).1, []) := by
  obtain ⟨he, hk, hpd, hco, hsu, hch⟩ := runSeq_releases (List.range 7) s (List.nodup_range 7)
  set p := runSeq ((List.range 7).map releaseNote) s with hpdef
  have hall : allNotesOff s =
      ((stopCurrentChord (if p.1.sustainActive = true
          then ({ p.1 with sustainActive := false }, [Ev.cc 0]) else (p.1, [])).1).1,
       p.2 ++ (if p.1.sustainActive = true
          then ({ p.1 with sustainActive := false }, [Ev.cc 0]) else (p.1, [])).2
           ++ (stopCurrentChord (if p.1.sustainActive = true
          then ({ p.1 with sustainActive := false }, [Ev.cc 0]) else (p.1, [])).1).2) := rfl
  have hkey : ∀ u : MidiState,
      u.notesActive = p.1.notesActive → u.sustainActive = false →
      u.pressureData = s.pressureData → u.comboKeyActive = s.comboKeyActive →
      u.chordActive = s.chordActive →
      ((stopCurrentChord u).2 = (if s.chordActive = true then
          (stopChordIndex s).elim [] (fun ci => (CUSTOM_CHORDS ci).map Ev.off) else []) ∧
       (stopCurrentChord u).1.notesActive = p.1.notesActive ∧
       (stopCurrentChord u).1.sustainActive = false ∧
       (stopCurrentChord u).1.chordActive = false) := by
    intro u hna hsus hupd huco huch
    refine ⟨?_, ?_, ?_, ?_⟩
    · rw [stopCurrentChord_evs u, stopChordIndex_congr s u hupd huco, huch]
    · rw [(stopCurrentChord_state u).1, hna]
    · rw [(stopCurrentChord_state u).2.1, hsus]
    · exact (stopCurrentChord_state u).2.2
  have hnotes : ∀ w : MidiState, w.notesActive = p.1.notesActive →
      w.notesActive = (fun k => if k < 7 then false else s.notesActive k) := by
    intro w hw
    funext k
    rw [hw, hk k]
    simp [List.mem_range]
  cases hs : s.sustainActive with
  | true =>
      have hcond : p.1.sustainActive = true := by rw [hsu, hs]
      have hq : (if p.1.sustainActive = true
          then ({ p.1 with sustainActive := false }, [Ev.cc 0]) else (p.1, []))
          = ({ p.1 with sustainActive := false }, [Ev.cc 0]) := if_pos hcond
      rw [hall, hq]
      have hfacts := hkey { p.1 with sustainActive := false } rfl rfl hpd hco hch
      have h2 : (stopCurrentChord { p.1 with sustainActive := false }).1.notesActive
          = (fun k => if k < 7 then false else s.notesActive k) :=
        hnotes _ hfacts.2.1
      refine ⟨?_, h2, hfacts.2.2.1, hfacts.2.2.2, ?_⟩
      · show p.2 ++ [Ev.cc 0] ++ (stopCurrentChord { p.1 with sustainActive := false }).2 = _
        rw [he, hfacts.1]
        simp
      · exact allNotesOff_nil _ (fun i hi => by rw [h2]; simp [hi])
          hfacts.2.2.1 hfacts.2.2.2
  | false =>
      have hcond : ¬ p.1.sustainActive = true := by rw [hsu, hs]; simp
      have hq : (if p.1.sustainActive = true
          then ({ p.1 with sustainActive := false }, [Ev.cc 0]) else (p.1, []))
          = (p.1, []) := if_neg hcond
      rw [hall, hq]
      have hfacts := hkey p.1 rfl (by rw [hsu, hs]) hpd hco hch
      have h2 : (stopCurrentChord p.1).1.notesActive
          = (fun k => if k < 7 then false else s.notesActive k) :=
        hnotes _ hfacts.2.1
      refine ⟨?_, h2, hfacts.2.2.1, hfacts.2.2.2, ?_⟩
      · show p.2 ++ [] ++ (stopCurrentChord p.1).2 = _
        rw [he, hfacts.1]
        simp
      · exact allNotesOff_nil _ (fun i hi => by rw [h2]; simp [hi])
          hfacts.2.2.1 hfacts.2.2.2

/-- **C4, counterexample.** In the reachable state where the chord on root 60
(slot 0) is active but channel 3 also reads a nonzero sub-threshold pressure,
`allNotesOff` releases slot 0 and then CUSTOM_CHORDS[3] - not the active
chord's note set: no note-off is emitted for pitch 67 (the chord's fifth,
also in the active chord's arpeggio set CUSTOM_CHORDS[0]), nor for 72 or 76,
so those notes would be left sounding. -/
theorem C4_counterexample :
    chordPressState.chordActive = true ∧
    chordPressState.chordRoot = NOTE_MAPPING 0 ∧
    chordPressState.chordFifth = 67 ∧
    67 ∈ CUSTOM_CHORDS 0 ∧ 72 ∈ CUSTOM_CHORDS 0 ∧ 76 ∈ CUSTOM_CHORDS 0 ∧
    (allNotesOff chordPressState).2 =
      [Ev.off 60, Ev.off 53, Ev.off 60, Ev.off 65, Ev.off 69] ∧
    Ev.off 67 ∉ (allNotesOff chordPressState).2 ∧
    Ev.off 72 ∉ (allNotesOff chordPressState).2 ∧
    Ev.off 76 ∉ (allNotesOff chordPressState).2 := by
  refine ⟨by decide, by decide, by decide, by decide, by decide, by decide, by decide,
    by decide, by decide, by decide⟩

/-! ## C8: trigger idempotence -/

theorem altOk_append (p : Nat) (l1 l2 : List Ev) (b : Bool) :
    altOk p (l1 ++ l2) b = (altOk p l1 b && altOk p l2 (pitchScan p l1 b)) := by
  induction l1 generalizing b with
  | nil => simp [altOk, pitchScan]
  | cons e t ih =>
      rcases e with ⟨q, v⟩ | q | v
      · by_cases hq : q = p
        · simp [altOk, pitchScan, hq, ih, Bool.and_assoc]
        · simp [altOk, pitchScan, hq, ih]
      · simp [altOk, pitchScan, ih]
      · simp [altOk, pitchScan, ih]

theorem pitchScan_append (p : Nat) (l1 l2 : List Ev) (b : Bool) :
    pitchScan p (l1 ++ l2) b = pitchScan p l2 (pitchScan p l1 b) := by
  induction l1 generalizing b with
  | nil => simp [pitchScan]
  | cons e t ih => cases e <;> simp [pitchScan, ih]

theorem NOTE_MAPPING_inj {a b : Nat} (ha : a < 7) (hb : b < 7)
    (h : NOTE_MAPPING a = NOTE_MAPPING b) : a = b := by
  interval_cases a <;> interval_cases b <;> simp_all [NOTE_MAPPING]

theorem StepOK_append {i : Nat} {s : MidiState} {r1 r2 : MidiState × List Ev}
    (hp : StepOK i s r1) (hq : StepOK i r1.1 r2) :
    StepOK i s (r2.1, r1.2 ++ r2.2) := by
  intro b hb
  obtain ⟨h1, h2⟩ := hp b hb
  obtain ⟨h3, h4⟩ := hq (pitchScan (NOTE_MAPPING i) r1.2 b) h2
  constructor
  · rw [altOk_append]
    simp [h1, h3]
  · rw [pitchScan_append]
    exact h4

theorem StepOK_silent {i : Nat} {s : MidiState} {r : MidiState × List Ev}
    (hev : r.2 = []) (hfl : r.1.notesActive i = s.notesActive i) : StepOK i s r := by
  intro b hb
  rw [hev]
  exact ⟨rfl, fun hsc => by rw [hfl]; exact hb (by simpa [pitchScan] using hsc)⟩

theorem StepOK_of_eqFlag {i : Nat} (s t : MidiState) {r : MidiState × List Ev}
    (hflag : t.notesActive i = s.notesActive i) (h : StepOK i t r) : StepOK i s r := by
  intro b hb
  exact h b (fun hb2 => by rw [hflag]; exact hb hb2)

theorem altOk_offs (p : Nat) (xs : List Nat) (b : Bool) :
    altOk p (xs.map Ev.off) b = true := by
  induction xs generalizing b with
  | nil => rfl
  | cons x t ih => simp [altOk, ih]

theorem pitchScan_offs (p : Nat) (xs : List Nat) (b : Bool) :
    pitchScan p (xs.map Ev.off) b = true → b = true := by
  induction xs generalizing b with
  | nil => simp [pitchScan]
  | cons x t ih =>
      intro h
      simp only [List.map_cons, pitchScan] at h
      have h2 := ih _ h
      by_cases hx : x = p
      · rw [if_pos hx] at h2
        exact absurd h2 (by simp)
      · rwa [if_neg hx] at h2

theorem StepOK_offs {i : Nat} {s : MidiState} {r : MidiState × List Ev}
    (hev : ∃ xs : List Nat, r.2 = xs.map Ev.off) (hfl : r.1.notesActive i = s.notesActive i) :
    StepOK i s r := by
  intro b hb
  obtain ⟨xs, hxs⟩ := hev
  rw [hxs]
  exact ⟨altOk_offs _ xs b, fun hsc => by rw [hfl]; exact hb (pitchScan_offs _ xs b hsc)⟩

theorem stopCurrentChord_offs (s : MidiState) :
    ∃ xs : List Nat, (stopCurrentChord s).2 = xs.map Ev.off := by
  cases hact : s.chordActive with
  | true =>
      cases hidx : stopChordIndex s with
      | none => exact ⟨[], by simp [stopCurrentChord, hact, hidx]⟩
      | some ci => exact ⟨CUSTOM_CHORDS ci, by simp [stopCurrentChord, hact, hidx]⟩
  | false => exact ⟨[], by simp [stopCurrentChord, hact]⟩

theorem updateChordNotes_notesActive (s : MidiState) :
    (updateChordNotes s).notesActive = s.notesActive := by
  unfold updateChordNotes
  cases s.chordType <;> rfl

theorem startChord_offs (slot now : Nat) (s : MidiState) :
    ∃ xs : List Nat, (startChord slot now s).2 = xs.map Ev.off :=
  stopCurrentChord_offs s

theorem startChord_notesActive (slot now : Nat) (s : MidiState) :
    (startChord slot now s).1.notesActive = s.notesActive := by
  show (updateChordNotes { (stopCurrentChord s).1 with
      chordRoot := NOTE_MAPPING slot }).notesActive = s.notesActive
  rw [updateChordNotes_notesActive]
  exact (stopCurrentChord_state s).1

theorem StepOK_startChord (i slot now : Nat) (s : MidiState) :
    StepOK i s (startChord slot now s) :=
  StepOK_offs (startChord_offs slot now s) (by rw [startChord_notesActive])

theorem StepOK_stopCurrentChord (i : Nat) (s : MidiState) :
    StepOK i s (stopCurrentChord s) :=
  StepOK_offs (stopCurrentChord_offs s) (by rw [(stopCurrentChord_state s).1])

theorem StepOK_ite {i : Nat} {s : MidiState} (c : Prop) [Decidable c]
    {r1 r2 : MidiState × List Ev} (h1 : StepOK i s r1) (h2 : StepOK i s r2) :
    StepOK i s (if c then r1 else r2) := by
  split
  · exact h1
  · exact h2

theorem StepOK_playNote (i j v : Nat) (hi : i < 7) (hj : j < 7) (s : MidiState) :
    StepOK i s (playNote j v s) := by
  intro b hb
  unfold playNote
  cases hfl : s.notesActive j with
  | true =>
      rw [if_neg (by simp [hfl])]
      exact ⟨rfl, fun hsc => hb (by simpa [pitchScan] using hsc)⟩
  | false =>
      rw [if_pos rfl]
      by_cases hij : j = i
      · subst hij
        have hbf : b = false := by
          cases b with
          | false => rfl
          | true => exact absurd (hb rfl) (by simp [hfl])
        subst hbf
        constructor
        · simp [altOk]
        · intro _
          simp
      · have hne : NOTE_MAPPING j ≠ NOTE_MAPPING i := fun h => hij (NOTE_MAPPING_inj hj hi h)
        constructor
        · simp [altOk, hne]
        · intro hsc
          have hbb : b = true := by simpa [pitchScan, hne] using hsc
          show (if i = j then true else s.notesActive i) = true
          rw [if_neg (fun h => hij h.symm)]
          exact hb hbb

theorem StepOK_releaseNote (i j : Nat) (hi : i < 7) (hj : j < 7) (s : MidiState) :
    StepOK i s (releaseNote j s) := by
  intro b hb
  unfold releaseNote
  cases hfl : s.notesActive j with
  | false =>
      rw [if_neg (by simp [hfl])]
      exact ⟨rfl, fun hsc => hb (by simpa [pitchScan] using hsc)⟩
  | true =>
      rw [if_pos rfl]
      constructor
      · simp [altOk]
      · intro hsc
        by_cases hij : j = i
        · subst hij
          simp [pitchScan] at hsc
        · have hne : NOTE_MAPPING j ≠ NOTE_MAPPING i := fun h => hij (NOTE_MAPPING_inj hj hi h)
          have hbb : b = true := by simpa [pitchScan, hne] using hsc
          show (if i = j then false else s.notesActive i) = true
          rw [if_neg (fun h => hij h.symm)]
          exact hb hbb

theorem StepOK_singleNoteStep (i j now : Nat) (hi : i < 7) (hj : j < 7) (s : MidiState) :
    StepOK i s (singleNoteStep now j s) := by
  unfold singleNoteStep
  split
  · exact StepOK_append
      (StepOK_ite _ (StepOK_startChord i j now s) (StepOK_silent rfl rfl))
      (StepOK_playNote i j _ hi hj _)
  · split
    · exact StepOK_append (StepOK_releaseNote i j hi hj s)
        (StepOK_ite _ (StepOK_stopCurrentChord i _) (StepOK_silent rfl rfl))
    · exact StepOK_silent rfl rfl

theorem StepOK_runSeq (i : Nat) (fs : List (MidiState → MidiState × List Ev))
    (h : ∀ f ∈ fs, ∀ t, StepOK i t (f t)) (s : MidiState) :
    StepOK i s (runSeq fs s) := by
  induction fs generalizing s with
  | nil => exact StepOK_silent rfl rfl
  | cons f rest ih =>
      show StepOK i s ((runSeq rest (f s).1).1, (f s).2 ++ (runSeq rest (f s).1).2)
      exact StepOK_append (h f (by simp) s) (ih (fun g hg t => h g (by simp [hg]) t) _)

theorem StepOK_handleSingleNotes (i now : Nat) (hi : i < 7) (s : MidiState) :
    StepOK i s (handleSingleNotes now s) := by
  unfold handleSingleNotes
  refine StepOK_runSeq i _ ?_ s
  intro f hf t
  rcases List.mem_map.1 hf with ⟨j, hj, rfl⟩
  exact StepOK_singleNoteStep i j now hi (by have := List.mem_range.1 hj; omega) t

theorem StepOK_handleComboNotes (i now : Nat) (hi : i < 7) (s : MidiState) :
    StepOK i s (handleComboNotes now s) := by
  unfold handleComboNotes
  split
  · exact StepOK_append
      (StepOK_append
        (StepOK_ite _ (StepOK_startChord i 5 now s) (StepOK_silent rfl rfl))
        (StepOK_playNote i 5 _ hi (by omega) _))
      (StepOK_ite _ (StepOK_releaseNote i 1 hi (by omega) _) (StepOK_silent rfl rfl))
  · split
    · exact StepOK_append
        (StepOK_append
          (StepOK_ite _ (StepOK_startChord i 6 now s) (StepOK_silent rfl rfl))
          (StepOK_playNote i 6 _ hi (by omega) _))
        (StepOK_ite _ (StepOK_releaseNote i 2 hi (by omega) _) (StepOK_silent rfl rfl))
    · exact StepOK_append
        (StepOK_append
          (StepOK_releaseNote i 5 hi (by omega) s)
          (StepOK_releaseNote i 6 hi (by omega) _))
        (StepOK_ite _ (StepOK_stopCurrentChord i _) (StepOK_silent rfl rfl))

theorem StepOK_modeSwitch (i now : Nat) (hi : i < 7) (t : MidiState) :
    StepOK i t (if t.comboKeyActive = true then handleComboNotes now t
                else handleSingleNotes now t) := by
  split
  · exact StepOK_handleComboNotes i now hi t
  · exact StepOK_handleSingleNotes i now hi t

theorem StepOK_checkComboKeys (i now : Nat) (hi : i < 7) (s : MidiState) :
    StepOK i s (checkComboKeys now s) := by
  unfold checkComboKeys
  dsimp only
  refine StepOK_append ?_ (StepOK_modeSwitch i now hi _)
  split
  · split
    · exact StepOK_of_eqFlag s
        { s with comboKeyActive := decide (s.pressureData COMBO_KEY > PRESSURE_THRESHOLD) }
        rfl
        (StepOK_append
          (StepOK_releaseNote i 5 hi (by omega) _)
          (StepOK_releaseNote i 6 hi (by omega) _))
    · exact StepOK_silent rfl rfl
  · exact StepOK_silent rfl rfl

theorem handleChordPlayback_notesActive (now : Nat) (s : MidiState) :
    (handleChordPlayback now s).1.notesActive = s.notesActive := by
  unfold handleChordPlayback
  split
  · rfl
  · split
    · exact (stopCurrentChord_state s).1
    · split
      · rfl
      · rfl

theorem checkSustain_notesActive (now : Nat) (s : MidiState) :
    (checkSustain now s).1.notesActive = s.notesActive := by
  unfold checkSustain
  dsimp only
  split
  · split
    · rfl
    · rfl
  · split
    · rfl
    · rfl

/-- **C8.** Trigger idempotence: along any sequence of processed snapshots,
the trigger-evaluation event stream (`trigTrace`) alternates note-ons and
note-offs for every slot pitch: starting from any state whose slot-`i`
pending marker `b` is no stronger than its active flag (in particular from
the start-up state with `b = false`), a note-on for slot `i` is never emitted
twice without an intervening note-off for slot `i`. -/
theorem C8_trigger_idempotent (steps : List (Snapshot × Nat)) (s : MidiState)
    (i : Nat) (b : Bool) (hi : i < 7) (hb : b = true → s.notesActive i = true) :
    altOk (NOTE_MAPPING i) (trigTrace steps s) b = true := by
  induction steps generalizing s b with
  | nil => rfl
  | cons step rest ih =>
      obtain ⟨snap, now⟩ := step
      show altOk (NOTE_MAPPING i)
        ((checkComboKeys now (updateSensorData snap s)).2 ++
          trigTrace rest
            (checkSustain now
              (handleChordPlayback now
                (checkComboKeys now (updateSensorData snap s)).1).1).1) b = true
      rw [altOk_append]
      have hstep := StepOK_checkComboKeys i now hi (updateSensorData snap s)
      have h0 : (updateSensorData snap s).notesActive i = s.notesActive i := rfl
      obtain ⟨h1, h2⟩ := hstep b (fun hb2 => by rw [h0]; exact hb hb2)
      rw [h1]
      simp only [Bool.true_and]
      apply ih
      intro hb3
      rw [checkSustain_notesActive, handleChordPlayback_notesActive]
      exact h2 hb3

/-- **C8, witness.** The alternation check holds on a concrete two-snapshot
run from the start-up state for slot 0. -/
theorem C8_trigger_idempotent_witness :
    (0 < 7 ∧ (false = true → initialState.notesActive 0 = true)) ∧
    altOk (NOTE_MAPPING 0)
      (trigTrace [(snapPress200, 0), (snapPress200, 10)] initialState) false = true := by
  constructor
  · exact ⟨by decide, fun h => absurd h (by decide)⟩
  · exact C8_trigger_idempotent [(snapPress200, 0), (snapPress200, 10)] initialState 0 false
      (by decide) (fun h => absurd h (by decide))
